import Mathlib

/-!
Shallow embedding of src/vr4300/pipeline.c (CEN64 VR4300 processor pipeline).

Machine integers are modelled as `Nat` with explicit reduction mod `2^w`
where C wraparound matters.  The external collaborators of the pipeline
(segment map, instruction decoder, opcode-handler table, fault helpers,
memory bus) are not part of src/; they are parameters gathered in an `Env`
record, so every theorem is about the pipeline code itself, for an
arbitrary environment unless a hypothesis says otherwise.
-/

/-! ## Machine arithmetic helpers -/

/-- 64-bit unsigned subtraction `(a - b) mod 2^64`, as C computes it on
`uint64_t` operands. -/
def sub64 (a b : Nat) : Nat := (a + 2 ^ 64 - b % 2 ^ 64) % 2 ^ 64

/-- Reinterpret the low 32 bits of `w` as a signed `int32_t` and sign-extend
to an `int64_t`, returned in its 64-bit twos-complement representation. -/
def sext32to64 (w : Nat) : Nat :=
  if w % 2 ^ 32 < 2 ^ 31 then w % 2 ^ 32 else w % 2 ^ 32 + (2 ^ 64 - 2 ^ 32)

/-- View a 64-bit twos-complement representation as the signed integer it
denotes. -/
def int64OfNat (n : Nat) : Int :=
  if n % 2 ^ 64 < 2 ^ 63 then ((n % 2 ^ 64 : Nat) : Int)
  else ((n % 2 ^ 64 : Nat) : Int) - 2 ^ 64

/-- Twos-complement 64-bit representation of a signed integer. -/
def nat64OfInt (i : Int) : Nat := (i % (2 ^ 64 : Int)).toNat

/-- Arithmetic (sign-propagating) right shift of a 64-bit value by `k`. -/
def asr64 (x k : Nat) : Nat := nat64OfInt (Int.fdiv (int64OfNat x) (2 ^ k))

/-- Left shift of a 64-bit value by `k`, wrapping mod `2^64`. -/
def shl64 (x k : Nat) : Nat := (x * 2 ^ k) % 2 ^ 64

/-- Logical right shift of a 64-bit value by `k`. -/
def lsr64 (x k : Nat) : Nat := (x % 2 ^ 64) / 2 ^ k

/-- Bitwise complement on a 32-bit value, `~x` in C on `uint32_t`. -/
def complement32 (x : Nat) : Nat := Nat.xor (2 ^ 32 - 1) x

/-! ## Constants -/

/-- General-purpose register 0, hard-wired to zero on the VR4300. -/
def VR4300_REGISTER_R0 : Nat := 0

/-- Modelled from the spec: the CP0 status register lives at a fixed index
of the unified register file (cpu.h is not under src/); the exact index is
immaterial to the pipeline code, which only reads it to feed the segment
lookup. -/
def VR4300_CP0_REGISTER_STATUS : Nat := 44

/-- Modelled from the spec: the cold-reset signal is a fixed bit of the
`signals` word (cpu.h is not under src/). -/
def VR4300_SIGNAL_COLDRESET : Nat := 1

/-- Modelled from the spec: `Opcode.flags` bears at least the NEEDRS and
NEEDRT bits (decoder.h is not under src/); they are two distinct single
bits, here bit 1 and bit 2. -/
def OPCODE_INFO_NEEDRS : Nat := 2

/-- Modelled from the spec: the NEEDRT flag bit, distinct from NEEDRS. -/
def OPCODE_INFO_NEEDRT : Nat := 4

/-- Source-register field of an instruction word, decoder.h GET_RS. -/
def GET_RS (iw : Nat) : Nat := (iw >>> 21) &&& 31

/-- Target-register field of an instruction word, decoder.h GET_RT. -/
def GET_RT (iw : Nat) : Nat := (iw >>> 16) &&& 31

/-! ## Data model (pipeline.h / segment.h structures) -/

/-- An address-translation segment descriptor. -/
structure Segment where
  start : Nat
  length : Nat
  offset : Nat
  cached : Bool
deriving DecidableEq

/-- Fault kinds recorded in a common record of the latch. -/
inductive Fault where
  | NONE
  | IADE
  | DADE
  | UNC
  | LDI
  | DCB
  | RST
deriving DecidableEq

/-- The per-latch common record: program counter and fault status. -/
structure Common where
  pc : Nat
  fault : Fault
deriving DecidableEq

/-- A decoded opcode descriptor: id into the handler table plus flag bits. -/
structure Opcode where
  id : Nat
  flags : Nat
deriving DecidableEq

/-- Bus request kinds. -/
inductive BusRequestType where
  | NONE
  | READ
  | WRITE
deriving DecidableEq

/-- A data-bus request as carried by the EXDC latch. -/
structure BusRequest where
  type : BusRequestType
  address : Nat
  word : Nat
  size : Nat
  dqm : Nat
deriving DecidableEq

/-- IC to RF latch. -/
structure IcrfLatch where
  common : Common
  segment : Segment
  pc : Nat
deriving DecidableEq

/-- RF to EX latch. -/
structure RfexLatch where
  common : Common
  opcode : Opcode
  iw : Nat
  iw_mask : Nat
deriving DecidableEq

/-- EX to DC latch. -/
structure ExdcLatch where
  common : Common
  request : BusRequest
  segment : Segment
  result : Nat
  dest : Nat
deriving DecidableEq

/-- DC to WB latch. -/
structure DcwbLatch where
  common : Common
  result : Nat
  dest : Nat
deriving DecidableEq

/-- The pipeline record: four latches plus control state. -/
structure Pipeline where
  icrf_latch : IcrfLatch
  rfex_latch : RfexLatch
  exdc_latch : ExdcLatch
  dcwb_latch : DcwbLatch
  cycles_to_stall : Nat
  skip_stages : Nat
  exception_history : Nat
  fault_present : Bool

/-- The CPU state visible to the pipeline: the unified register file
(GPRs and CP0 registers), the pipeline, the external signal word, and a
log of the words written to the bus (the bus itself is external; the log
records each `bus_write_word(address, word, dqm)` call). -/
structure Vr4300 where
  regs : Nat → Nat
  pipeline : Pipeline
  signals : Nat
  busWrites : List (Nat × Nat × Nat)

/-! ## State update helpers -/

/-- Register-file write: `regs[i] = v`. -/
def updReg (r : Nat → Nat) (i v : Nat) : Nat → Nat :=
  fun j => if j = i then v else r j

/-- Replace the ICRF latch. -/
def setIcrf (s : Vr4300) (l : IcrfLatch) : Vr4300 :=
  { s with pipeline := { s.pipeline with icrf_latch := l } }

/-- Replace the RFEX latch. -/
def setRfex (s : Vr4300) (l : RfexLatch) : Vr4300 :=
  { s with pipeline := { s.pipeline with rfex_latch := l } }

/-- Replace the EXDC latch. -/
def setExdc (s : Vr4300) (l : ExdcLatch) : Vr4300 :=
  { s with pipeline := { s.pipeline with exdc_latch := l } }

/-- Replace the DCWB latch. -/
def setDcwb (s : Vr4300) (l : DcwbLatch) : Vr4300 :=
  { s with pipeline := { s.pipeline with dcwb_latch := l } }

/-! ## External collaborators -/

/-- The collaborators of pipeline.c that live outside src/: the segment
map, the decoder, the opcode-handler table, and the fault helpers.  Each
fault helper receives the CPU state at the point of the corresponding
`VR4300_XXXX(vr4300)` call and returns the mutated state. -/
structure Env where
  get_segment : Nat → Nat → Option Segment
  decode : Nat → Opcode
  handler : Nat → Vr4300 → Nat → Nat → Vr4300
  fault_IADE : Vr4300 → Vr4300
  fault_UNC : Vr4300 → Vr4300
  fault_LDI : Vr4300 → Vr4300
  fault_DADE : Vr4300 → Vr4300
  fault_DCB : Vr4300 → Vr4300
  fault_RST : Vr4300 → Vr4300

/-! ## Stage functions (pipeline.c lines 26-177)

Each stage returns `(aborted, state)`; `true` corresponds to the C stage
returning 1. -/

/-- pipeline.c lines 33-38: record the pc in the ICRF common record,
finish the RF decode by applying `iw_mask` to `iw`, look the word up in
the decode table, and reset `iw_mask` to all-ones. -/
def ic_decode_update (env : Env) (s : Vr4300) : Vr4300 :=
  let icrf := s.pipeline.icrf_latch
  let s := setIcrf s { icrf with common := { icrf.common with pc := icrf.pc } }
  let rfex := s.pipeline.rfex_latch
  let decode_iw := rfex.iw &&& rfex.iw_mask
  setRfex s { rfex with
    iw := decode_iw
    opcode := env.decode decode_iw
    iw_mask := 2 ^ 32 - 1 }

/-- pipeline.c lines 52-54: clear the ICRF fault and advance pc by 4. -/
def ic_finish (s : Vr4300) : Vr4300 :=
  let icrf := s.pipeline.icrf_latch
  setIcrf s { icrf with
    common := { icrf.common with fault := Fault.NONE }
    pc := (icrf.pc + 4) % 2 ^ 64 }

/-- pipeline.c lines 26-56: the instruction cache stage. -/
def vr4300_ic_stage (env : Env) (s : Vr4300) : Bool × Vr4300 :=
  let segment := s.pipeline.icrf_latch.segment
  let pc := s.pipeline.icrf_latch.pc
  let s := ic_decode_update env s
  if sub64 pc segment.start > segment.length then
    match env.get_segment pc (s.regs VR4300_CP0_REGISTER_STATUS % 2 ^ 32) with
    | none => (true, env.fault_IADE s)
    | some seg =>
        let s := setIcrf s { s.pipeline.icrf_latch with segment := seg }
        (false, ic_finish s)
  else
    (false, ic_finish s)

/-- pipeline.c lines 59-72: the register fetch stage. -/
def vr4300_rf_stage (env : Env) (s : Vr4300) : Bool × Vr4300 :=
  let icrf := s.pipeline.icrf_latch
  let s := setRfex s { s.pipeline.rfex_latch with common := icrf.common }
  if icrf.segment.cached then (false, s) else (true, env.fault_UNC s)

/-- pipeline.c line 83: EX propagates the RFEX common record into EXDC. -/
def ex_common_update (s : Vr4300) : Vr4300 :=
  setExdc s { s.pipeline.exdc_latch with common := s.pipeline.rfex_latch.common }

/-- pipeline.c lines 75-122: the execution stage. -/
def vr4300_ex_stage (env : Env) (s : Vr4300) : Bool × Vr4300 :=
  let rfex := s.pipeline.rfex_latch
  let dcwb := s.pipeline.dcwb_latch
  let s := ex_common_update s
  let flags := rfex.opcode.flags
  let flags :=
    if s.pipeline.exdc_latch.request.type = BusRequestType.NONE then
      flags &&& complement32 (OPCODE_INFO_NEEDRS ||| OPCODE_INFO_NEEDRT)
    else flags
  let iw := rfex.iw
  let rt := GET_RT iw
  let rs := GET_RS iw
  if (dcwb.dest = rs ∧ flags &&& OPCODE_INFO_NEEDRS ≠ 0) ∨
     (dcwb.dest = rt ∧ flags &&& OPCODE_INFO_NEEDRT ≠ 0) then
    (true, env.fault_LDI s)
  else
    let temp := s.regs dcwb.dest
    let regs := updReg s.regs dcwb.dest dcwb.result
    let regs := updReg regs VR4300_REGISTER_R0 0
    let rs_reg := regs (GET_RS iw)
    let rt_reg := regs (GET_RT iw)
    let regs := updReg regs dcwb.dest temp
    let s := { s with regs := regs }
    let s := setExdc s { s.pipeline.exdc_latch with
      dest := VR4300_REGISTER_R0
      request := { s.pipeline.exdc_latch.request with type := BusRequestType.NONE } }
    (false, env.handler rfex.opcode.id s rs_reg rt_reg)

/-- pipeline.c lines 131-133: DC copies common, result and dest from the
EXDC latch into the DCWB latch before anything else. -/
def dc_copy_update (s : Vr4300) : Vr4300 :=
  let exdc := s.pipeline.exdc_latch
  setDcwb s { s.pipeline.dcwb_latch with
    common := exdc.common
    result := exdc.result
    dest := exdc.dest }

/-- pipeline.c lines 137-144: resolve the segment for the data address —
the current EXDC segment if the address is inside it, otherwise a segment
map lookup with the current CP0 status. -/
def dc_segment_lookup (env : Env) (s : Vr4300) : Option Segment :=
  let segment := s.pipeline.exdc_latch.segment
  let address := s.pipeline.exdc_latch.request.address
  if sub64 address segment.start > segment.length then
    env.get_segment address (s.regs VR4300_CP0_REGISTER_STATUS % 2 ^ 32)
  else some segment

/-- pipeline.c lines 146-147: install the resolved segment into the EXDC
latch and rebase the request address into bus space. -/
def dc_install_update (s : Vr4300) (seg : Segment) : Vr4300 :=
  let exdc := s.pipeline.exdc_latch
  setExdc s { exdc with
    segment := seg
    request := { exdc.request with address := sub64 exdc.request.address seg.offset } }

/-- pipeline.c lines 125-165: the data cache stage. -/
def vr4300_dc_stage (env : Env) (s : Vr4300) : Bool × Vr4300 :=
  let s := dc_copy_update s
  if s.pipeline.exdc_latch.request.type = BusRequestType.NONE then (false, s)
  else
    match dc_segment_lookup env s with
    | none => (true, env.fault_DADE s)
    | some seg =>
        let s := dc_install_update s seg
        if s.pipeline.exdc_latch.request.type = BusRequestType.READ then
          (true, env.fault_DCB s)
        else
          (false, { s with busWrites :=
            (s.pipeline.exdc_latch.request.address,
             s.pipeline.exdc_latch.request.word,
             s.pipeline.exdc_latch.request.dqm) :: s.busWrites })

/-- pipeline.c lines 168-177: the writeback stage.  Never aborts; on a
fault-free latch it commits the result and re-forces register 0 to zero. -/
def vr4300_wb_stage (s : Vr4300) : Bool × Vr4300 :=
  let dcwb := s.pipeline.dcwb_latch
  if dcwb.common.fault ≠ Fault.NONE then (false, s)
  else
    let regs := updReg s.regs dcwb.dest dcwb.result
    let regs := updReg regs VR4300_REGISTER_R0 0
    (false, { s with regs := regs })

/-! ## Replay (slow-path) cycle variants (pipeline.c lines 181-373)

Each variant is the literal sequence of per-stage checks of the C code.
The shared per-position steps carry the squash rule: a stage whose input
latch holds a fault is skipped and instead pulls the upstream
common record. -/

/-- pipeline.c lines 190-191: unconditionally post-increment
`exception_history` and clear `fault_present` once the old value
exceeds 4. -/
def histUpdate (s : Vr4300) : Vr4300 :=
  { s with pipeline := { s.pipeline with
      exception_history := s.pipeline.exception_history + 1
      fault_present :=
        if s.pipeline.exception_history > 4 then false
        else s.pipeline.fault_present } }

/-- pipeline.c lines 193-199: run WB when the DCWB latch is fault-free,
otherwise squash it and pull `exdc_latch.common` into `dcwb_latch.common`. -/
def slow_wb_step (s : Vr4300) : Bool × Vr4300 :=
  if s.pipeline.dcwb_latch.common.fault = Fault.NONE then vr4300_wb_stage s
  else
    (false, setDcwb s { s.pipeline.dcwb_latch with common := s.pipeline.exdc_latch.common })

/-- pipeline.c lines 201-207 (and 235-241): run DC when the EXDC latch is
fault-free, otherwise squash it and pull `rfex_latch.common` into
`exdc_latch.common`. -/
def slow_dc_step (env : Env) (s : Vr4300) : Bool × Vr4300 :=
  if s.pipeline.exdc_latch.common.fault = Fault.NONE then vr4300_dc_stage env s
  else
    (false, setExdc s { s.pipeline.exdc_latch with common := s.pipeline.rfex_latch.common })

/-- pipeline.c lines 209-215 (and the same block in every later variant):
run EX when the RFEX latch is fault-free, otherwise squash it and pull
`icrf_latch.common` into `rfex_latch.common`. -/
def slow_ex_step (env : Env) (s : Vr4300) : Bool × Vr4300 :=
  if s.pipeline.rfex_latch.common.fault = Fault.NONE then vr4300_ex_stage env s
  else
    (false, setRfex s { s.pipeline.rfex_latch with common := s.pipeline.icrf_latch.common })

/-- pipeline.c lines 217-219: run RF only when the ICRF latch is
fault-free; there is no upstream latch, so the squashed case does
nothing. -/
def slow_rf_step (env : Env) (s : Vr4300) : Bool × Vr4300 :=
  if s.pipeline.icrf_latch.common.fault = Fault.NONE then vr4300_rf_stage env s
  else (false, s)

/-- The RF-then-IC tail shared by every replay variant. -/
def chain_rf (env : Env) (s : Vr4300) : Bool × Vr4300 :=
  let r := slow_rf_step env s
  if r.1 then (true, r.2) else vr4300_ic_stage env r.2

/-- The EX-then-RF-then-IC tail shared by the wb, dc, ex and ex_fixdc
variants. -/
def chain_ex (env : Env) (s : Vr4300) : Bool × Vr4300 :=
  let r := slow_ex_step env s
  if r.1 then (true, r.2) else chain_rf env r.2

/-- The DC-then-EX-then-RF-then-IC tail shared by the wb and dc variants. -/
def chain_dc (env : Env) (s : Vr4300) : Bool × Vr4300 :=
  let r := slow_dc_step env s
  if r.1 then (true, r.2) else chain_ex env r.2

/-- pipeline.c: every variant except `vr4300_cycle_slow_wb` resets
`skip_stages` to 0 when it reaches the end without an abort. -/
def runSlowTail (r : Bool × Vr4300) : Vr4300 :=
  if r.1 then r.2
  else { r.2 with pipeline := { r.2.pipeline with skip_stages := 0 } }

/-- pipeline.c lines 181-223: the replay variant entered from WB. -/
def vr4300_cycle_slow_wb (env : Env) (s : Vr4300) : Vr4300 :=
  let s := histUpdate s
  let r := slow_wb_step s
  if r.1 then r.2 else (chain_dc env r.2).2

/-- pipeline.c lines 229-259: the replay variant entered from DC. -/
def vr4300_cycle_slow_dc (env : Env) (s : Vr4300) : Vr4300 :=
  runSlowTail (chain_dc env s)

/-- pipeline.c lines 265-286: the replay variant entered from EX. -/
def vr4300_cycle_slow_ex (env : Env) (s : Vr4300) : Vr4300 :=
  runSlowTail (chain_ex env s)

/-- pipeline.c lines 301-312: the load fix-up arithmetic of
`vr4300_cycle_slow_ex_fixdc`: merge the (sign- and zero-extended) read
word into `dcwb_latch.result` under the keep-mask in
`exdc_latch.result`. -/
def vr4300_fixdc_update (s : Vr4300) : Vr4300 :=
  let request := s.pipeline.exdc_latch.request
  let maskshift := request.size * 8
  let datashift := (8 - request.size) * 8
  let data0 := request.word % 2 ^ 32
  let sdata0 := sext32to64 request.word
  let mask0 := s.pipeline.exdc_latch.result % 2 ^ 64
  let mask := shl64 (asr64 mask0 maskshift) maskshift
  let sdata := asr64 (shl64 sdata0 datashift) datashift
  let data := lsr64 (shl64 data0 datashift) datashift
  setDcwb s { s.pipeline.dcwb_latch with result := Nat.lor (Nat.land sdata mask) data }

/-- pipeline.c lines 293-331: the replay variant entered from EX that
first fixes up the DC/WB latches after a memory read. -/
def vr4300_cycle_slow_ex_fixdc (env : Env) (s : Vr4300) : Vr4300 :=
  runSlowTail (chain_ex env (vr4300_fixdc_update s))

/-- pipeline.c lines 337-349: the replay variant entered from RF. -/
def vr4300_cycle_slow_rf (env : Env) (s : Vr4300) : Vr4300 :=
  runSlowTail (chain_rf env s)

/-- pipeline.c lines 355-362: the replay variant entered from IC. -/
def vr4300_cycle_slow_ic (env : Env) (s : Vr4300) : Vr4300 :=
  runSlowTail (vr4300_ic_stage env s)

/-- pipeline.c lines 366-373: the LUT of replay entry points, indexed by
`skip_stages`.  Indices above 5 never occur in the program (the table has
six entries); they are mapped to the identity. -/
def pipeline_function_lut (env : Env) : Nat → Vr4300 → Vr4300
  | 0 => vr4300_cycle_slow_wb env
  | 1 => vr4300_cycle_slow_dc env
  | 2 => vr4300_cycle_slow_ex env
  | 3 => vr4300_cycle_slow_rf env
  | 4 => vr4300_cycle_slow_ic env
  | 5 => vr4300_cycle_slow_ex_fixdc env
  | _ + 6 => fun s => s

/-- pipeline.c lines 376-414: one pclock of the pipeline. -/
def vr4300_cycle (env : Env) (s : Vr4300) : Vr4300 :=
  if s.pipeline.cycles_to_stall > 0 then
    { s with pipeline :=
      { s.pipeline with cycles_to_stall := s.pipeline.cycles_to_stall - 1 } }
  else
    let s := if s.signals &&& VR4300_SIGNAL_COLDRESET ≠ 0 then env.fault_RST s else s
    if s.pipeline.fault_present ∨ s.pipeline.skip_stages ≠ 0 then
      pipeline_function_lut env s.pipeline.skip_stages s
    else
      let r := vr4300_wb_stage s
      if r.1 then r.2 else
      let r := vr4300_dc_stage env r.2
      if r.1 then r.2 else
      let r := vr4300_ex_stage env r.2
      if r.1 then r.2 else
      let r := vr4300_rf_stage env r.2
      if r.1 then r.2 else
      (vr4300_ic_stage env r.2).2

/-- pipeline.c lines 417-422: zero-initialized pipeline with the default
segment (supplied by the external segment module) installed in the ICRF
and EXDC latches. -/
def vr4300_pipeline_init (seg : Segment) : Pipeline :=
  { icrf_latch := ⟨⟨0, Fault.NONE⟩, seg, 0⟩
    rfex_latch := ⟨⟨0, Fault.NONE⟩, ⟨0, 0⟩, 0, 0⟩
    exdc_latch := ⟨⟨0, Fault.NONE⟩, ⟨BusRequestType.NONE, 0, 0, 0, 0⟩, seg, 0, 0⟩
    dcwb_latch := ⟨⟨0, Fault.NONE⟩, 0, 0⟩
    cycles_to_stall := 0
    skip_stages := 0
    exception_history := 0
    fault_present := false }

/-! ## Spec-side definition for the fast-path refinement claim -/

/-- Written from the words of the spec (section 4.7, fast path): run a list of
stages in order and return immediately after the first one that aborts,
leaving the rest unrun. -/
def runStagesUntilAbort : List (Vr4300 → Bool × Vr4300) → Vr4300 → Vr4300
  | [], s => s
  | f :: fs, s =>
      let r := f s
      if r.1 then r.2 else runStagesUntilAbort fs r.2

/-- Written from the words of the spec: the fast path invokes WB, DC, EX, RF,
IC in that order with early exit on abort. -/
def fastPathSpec (env : Env) (s : Vr4300) : Vr4300 :=
  runStagesUntilAbort
    [vr4300_wb_stage, vr4300_dc_stage env, vr4300_ex_stage env,
     vr4300_rf_stage env, vr4300_ic_stage env] s

/-! ## R0-preservation contract for the external collaborators -/

/-- `f` keeps register 0 at zero whenever it was zero. -/
def PreservesR0 (f : Vr4300 → Vr4300) : Prop :=
  ∀ s, s.regs VR4300_REGISTER_R0 = 0 → (f s).regs VR4300_REGISTER_R0 = 0

/-- The hypothesis of the register-zero invariant: every external opcode
handler and every fault helper preserves `regs[R0] == 0`. -/
structure EnvPreservesR0 (env : Env) : Prop where
  handler : ∀ i a b, PreservesR0 (fun s => env.handler i s a b)
  iade : PreservesR0 env.fault_IADE
  unc : PreservesR0 env.fault_UNC
  ldi : PreservesR0 env.fault_LDI
  dade : PreservesR0 env.fault_DADE
  dcb : PreservesR0 env.fault_DCB
  rst : PreservesR0 env.fault_RST

/-! ## Concrete environments and states used as test vectors -/

/-- A segment covering the whole 64-bit space, cached, with no rebasing. -/
def bigSegment : Segment := ⟨0, 2 ^ 64 - 1, 0, true⟩

/-- A concrete environment whose externals are inert: the decoder yields
opcode 0 with no flags, the handler and all fault helpers leave the state
unchanged, and every lookup hits `bigSegment`. -/
def idEnv : Env :=
  ⟨fun _ _ => some bigSegment, fun _ => ⟨0, 0⟩, fun _ s _ _ => s,
   id, id, id, id, id, id⟩

/-- Like `idEnv` but with an empty segment map. -/
def noSegEnv : Env := { idEnv with get_segment := fun _ _ => none }

/-- The freshly initialized CPU: zero registers, zero-initialized pipeline
with `bigSegment` installed, no signals, no bus traffic. -/
def initVr : Vr4300 := ⟨fun _ => 0, vr4300_pipeline_init bigSegment, 0, []⟩

/-- `initVr` with `fault_present` set: the driver dispatches the slow-WB
replay variant every tick. -/
def c4State : Vr4300 :=
  { initVr with pipeline := { initVr.pipeline with fault_present := true } }

/-- `initVr` with a fault parked in the DCWB latch. -/
def dcwbFaultState : Vr4300 :=
  { initVr with pipeline := { initVr.pipeline with
      dcwb_latch := { initVr.pipeline.dcwb_latch with common := ⟨0, Fault.LDI⟩ } } }

/-- `initVr` with a fault parked in the EXDC latch. -/
def exdcFaultState : Vr4300 :=
  { initVr with pipeline := { initVr.pipeline with
      exdc_latch := { initVr.pipeline.exdc_latch with common := ⟨0, Fault.DCB⟩ } } }

/-- `initVr` with a fault parked in the RFEX latch. -/
def rfexFaultState : Vr4300 :=
  { initVr with pipeline := { initVr.pipeline with
      rfex_latch := { initVr.pipeline.rfex_latch with common := ⟨0, Fault.LDI⟩ } } }

/-- `initVr` stalling for three more ticks with the cold-reset signal
asserted. -/
def stallState : Vr4300 :=
  { initVr with
    pipeline := { initVr.pipeline with cycles_to_stall := 3 }
    signals := VR4300_SIGNAL_COLDRESET }

/-- `initVr` with the ICRF pc outside its segment window. -/
def icMissState : Vr4300 :=
  { initVr with pipeline := { initVr.pipeline with
      icrf_latch := ⟨⟨0, Fault.NONE⟩, ⟨100, 10, 0, true⟩, 0⟩ } }

/-- A state whose RFEX instruction needs rs (= r0) while a load to r0 is
pending in DCWB and a bus request is still pending in EXDC. -/
def ldiState : Vr4300 :=
  { initVr with pipeline := { initVr.pipeline with
      rfex_latch := ⟨⟨0, Fault.NONE⟩, ⟨0, OPCODE_INFO_NEEDRS⟩, 0, 0⟩
      exdc_latch := { initVr.pipeline.exdc_latch with
        request := ⟨BusRequestType.READ, 0, 0, 0, 0⟩ } } }

/-- The load sign-extension test vector of the spec: a 2-byte read of
0x8000 with an all-ones keep-mask in `exdc_latch.result`. -/
def fixdcState : Vr4300 :=
  { initVr with pipeline := { initVr.pipeline with
      exdc_latch := { initVr.pipeline.exdc_latch with
        request := ⟨BusRequestType.READ, 0, 0x8000, 2, 0⟩
        result := 2 ^ 64 - 1 } } }

/-- A pending write whose address misses the EXDC segment, headed for a
DADE under an empty segment map. -/
def dadeState : Vr4300 :=
  { initVr with pipeline := { initVr.pipeline with
      exdc_latch := ⟨⟨0, Fault.NONE⟩, ⟨BusRequestType.WRITE, 0, 0, 0, 0⟩,
                     ⟨100, 10, 0, true⟩, 7, 3⟩ } }

/-- A pending read whose address sits inside the EXDC segment (which
rebases by 5), headed for a DCB. -/
def dcbState : Vr4300 :=
  { initVr with pipeline := { initVr.pipeline with
      exdc_latch := ⟨⟨2, Fault.NONE⟩, ⟨BusRequestType.READ, 100, 0, 0, 0⟩,
                     ⟨0, 2 ^ 64 - 1, 5, true⟩, 7, 3⟩ } }

/-! ## Claim C5: stall precedence over reset -/

/-- Claim C5: if `cycles_to_stall > 0` when `vr4300_cycle` is called, the
call only decrements `cycles_to_stall` and returns: no pipeline stage
runs, no RST fault is raised even when the COLDRESET signal is asserted,
and every register, every latch, `skip_stages` and `fault_present` are
left unchanged. -/
theorem C5_stall_precedence (env : Env) (s : Vr4300)
    (h : 0 < s.pipeline.cycles_to_stall) :
    vr4300_cycle env s =
      { s with pipeline :=
        { s.pipeline with cycles_to_stall := s.pipeline.cycles_to_stall - 1 } } := by
  unfold vr4300_cycle
  rw [if_pos h]

/-- Witness for C5 at a concrete stalling state with COLDRESET asserted. -/
theorem C5_stall_precedence_witness :
    vr4300_cycle idEnv stallState =
      { stallState with pipeline :=
        { stallState.pipeline with
            cycles_to_stall := stallState.pipeline.cycles_to_stall - 1 } } :=
  C5_stall_precedence idEnv stallState (by decide)

/-! ## Claim C2: fast-path stage order and early exit -/

/-- Claim C2: entered with no stall, no COLDRESET signal, no fault present
and `skip_stages = 0`, `vr4300_cycle` equals the spec-side fast path that
invokes WB, DC, EX, RF, IC in exactly that order and returns immediately
after the first stage that aborts, leaving the later stages unrun. -/
theorem C2_fast_path_order (env : Env) (s : Vr4300)
    (h1 : s.pipeline.cycles_to_stall = 0)
    (h2 : s.signals &&& VR4300_SIGNAL_COLDRESET = 0)
    (h3 : s.pipeline.fault_present = false)
    (h4 : s.pipeline.skip_stages = 0) :
    vr4300_cycle env s = fastPathSpec env s := by
  simp [vr4300_cycle, fastPathSpec, runStagesUntilAbort, h1, h2, h3, h4]

/-- Witness for C2 at the freshly initialized CPU. -/
theorem C2_fast_path_order_witness :
    vr4300_cycle idEnv initVr = fastPathSpec idEnv initVr :=
  C2_fast_path_order idEnv initVr (by decide) (by decide) (by decide) (by decide)

/-! ## Small structural lemmas -/

theorem updReg_self (r : Nat → Nat) (i v : Nat) : updReg r i v i = v := by
  simp [updReg]

@[simp] theorem setIcrf_regs (s : Vr4300) (l : IcrfLatch) : (setIcrf s l).regs = s.regs := rfl

@[simp] theorem setRfex_regs (s : Vr4300) (l : RfexLatch) : (setRfex s l).regs = s.regs := rfl

@[simp] theorem setExdc_regs (s : Vr4300) (l : ExdcLatch) : (setExdc s l).regs = s.regs := rfl

@[simp] theorem setDcwb_regs (s : Vr4300) (l : DcwbLatch) : (setDcwb s l).regs = s.regs := rfl

@[simp] theorem ic_decode_update_regs (env : Env) (s : Vr4300) :
    (ic_decode_update env s).regs = s.regs := rfl

@[simp] theorem ic_finish_regs (s : Vr4300) : (ic_finish s).regs = s.regs := rfl

@[simp] theorem ex_common_update_regs (s : Vr4300) : (ex_common_update s).regs = s.regs := rfl

@[simp] theorem dc_copy_update_regs (s : Vr4300) : (dc_copy_update s).regs = s.regs := rfl

@[simp] theorem dc_install_update_regs (s : Vr4300) (seg : Segment) :
    (dc_install_update s seg).regs = s.regs := rfl

@[simp] theorem histUpdate_regs (s : Vr4300) : (histUpdate s).regs = s.regs := rfl

@[simp] theorem fixdc_update_regs (s : Vr4300) : (vr4300_fixdc_update s).regs = s.regs := rfl

theorem runSlowTail_regs (r : Bool × Vr4300) : (runSlowTail r).regs = r.2.regs := by
  unfold runSlowTail
  split <;> rfl

/-! ## Claim C3: the squash rule of the replay variants -/

/-- Claim C3: in every replay variant, a stage whose input latch carries a
fault does not execute its stage body; instead the upstream common
record is copied into that latch.  The three fault-guarded positions with
an upstream latch (shared by all variants through `slow_wb_step`,
`slow_dc_step` and `slow_ex_step`) each reduce to the pure copy, and a
replay variant entered at a squashed stage continues exactly like the
next variant on the squashed state. -/
theorem C3_squash_rule :
    (∀ s : Vr4300, s.pipeline.dcwb_latch.common.fault ≠ Fault.NONE →
      slow_wb_step s =
        (false, setDcwb s { s.pipeline.dcwb_latch with
          common := s.pipeline.exdc_latch.common })) ∧
    (∀ (env : Env) (s : Vr4300), s.pipeline.exdc_latch.common.fault ≠ Fault.NONE →
      slow_dc_step env s =
        (false, setExdc s { s.pipeline.exdc_latch with
          common := s.pipeline.rfex_latch.common })) ∧
    (∀ (env : Env) (s : Vr4300), s.pipeline.rfex_latch.common.fault ≠ Fault.NONE →
      slow_ex_step env s =
        (false, setRfex s { s.pipeline.rfex_latch with
          common := s.pipeline.icrf_latch.common })) ∧
    (∀ (env : Env) (s : Vr4300), s.pipeline.rfex_latch.common.fault ≠ Fault.NONE →
      vr4300_cycle_slow_ex env s =
        vr4300_cycle_slow_rf env
          (setRfex s { s.pipeline.rfex_latch with
            common := s.pipeline.icrf_latch.common })) := by
  refine ⟨fun s h => ?_, fun env s h => ?_, fun env s h => ?_, fun env s h => ?_⟩
  · unfold slow_wb_step
    rw [if_neg h]
  · unfold slow_dc_step
    rw [if_neg h]
  · unfold slow_ex_step
    rw [if_neg h]
  · unfold vr4300_cycle_slow_ex vr4300_cycle_slow_rf chain_ex slow_ex_step
    rw [if_neg h]
    simp

/-- Witness for C3 at concrete faulted latches. -/
theorem C3_squash_rule_witness :
    slow_wb_step dcwbFaultState =
      (false, setDcwb dcwbFaultState { dcwbFaultState.pipeline.dcwb_latch with
        common := dcwbFaultState.pipeline.exdc_latch.common }) ∧
    slow_dc_step idEnv exdcFaultState =
      (false, setExdc exdcFaultState { exdcFaultState.pipeline.exdc_latch with
        common := exdcFaultState.pipeline.rfex_latch.common }) ∧
    slow_ex_step idEnv rfexFaultState =
      (false, setRfex rfexFaultState { rfexFaultState.pipeline.rfex_latch with
        common := rfexFaultState.pipeline.icrf_latch.common }) ∧
    vr4300_cycle_slow_ex idEnv rfexFaultState =
      vr4300_cycle_slow_rf idEnv
        (setRfex rfexFaultState { rfexFaultState.pipeline.rfex_latch with
          common := rfexFaultState.pipeline.icrf_latch.common }) :=
  ⟨C3_squash_rule.1 dcwbFaultState (by decide),
   C3_squash_rule.2.1 idEnv exdcFaultState (by decide),
   C3_squash_rule.2.2.1 idEnv rfexFaultState (by decide),
   C3_squash_rule.2.2.2 idEnv rfexFaultState (by decide)⟩

/-! ## Claim C4: when `fault_present` is cleared (corrected) -/

/-- Counterexample to claim C4 as stated: starting from a fault-free
pipeline with `fault_present` set and `exception_history = 0`, four
consecutive ticks (each a fault-free slow-WB evaluation) do NOT clear
`fault_present`. -/
theorem C4_counterexample :
    ((vr4300_cycle idEnv)^[4] c4State).pipeline.fault_present = true := by
  decide

/-- Claim C4 as amended: `vr4300_cycle_slow_wb` post-increments
`exception_history` unconditionally — whether or not the WB latch is
fault-free — and clears `fault_present` when the pre-increment value
exceeds 4, so starting from `exception_history = 0` it is the sixth
consecutive slow-WB evaluation, not the fourth, that clears
`fault_present`. -/
theorem C4_amended_history_threshold :
    ((vr4300_cycle idEnv)^[5] c4State).pipeline.fault_present = true ∧
    ((vr4300_cycle idEnv)^[6] c4State).pipeline.fault_present = false ∧
    (vr4300_cycle_slow_wb idEnv dcwbFaultState).pipeline.exception_history =
      dcwbFaultState.pipeline.exception_history + 1 := by
  refine ⟨by decide, by decide, by decide⟩

/-! ## Claim C1: the register-zero invariant -/

theorem swap_restore_r0 (r : Nat → Nat) (d res : Nat)
    (h : r VR4300_REGISTER_R0 = 0) :
    updReg (updReg (updReg r d res) VR4300_REGISTER_R0 0) d (r d)
      VR4300_REGISTER_R0 = 0 := by
  by_cases hd : VR4300_REGISTER_R0 = d
  · simp [updReg, ← hd, h]
  · simp [updReg, hd]

theorem wb_stage_r0 (s : Vr4300) (h : s.regs VR4300_REGISTER_R0 = 0) :
    ((vr4300_wb_stage s).2).regs VR4300_REGISTER_R0 = 0 := by
  unfold vr4300_wb_stage
  dsimp only
  split
  · exact h
  · simp [updReg, VR4300_REGISTER_R0]

theorem ic_stage_r0 (env : Env) (s : Vr4300) (henv : EnvPreservesR0 env)
    (h : s.regs VR4300_REGISTER_R0 = 0) :
    ((vr4300_ic_stage env s).2).regs VR4300_REGISTER_R0 = 0 := by
  unfold vr4300_ic_stage
  dsimp only
  split
  · split
    · exact henv.iade _ h
    · exact h
  · exact h

theorem rf_stage_r0 (env : Env) (s : Vr4300) (henv : EnvPreservesR0 env)
    (h : s.regs VR4300_REGISTER_R0 = 0) :
    ((vr4300_rf_stage env s).2).regs VR4300_REGISTER_R0 = 0 := by
  unfold vr4300_rf_stage
  dsimp only
  split
  · exact h
  · exact henv.unc _ h

theorem ex_stage_r0 (env : Env) (s : Vr4300) (henv : EnvPreservesR0 env)
    (h : s.regs VR4300_REGISTER_R0 = 0) :
    ((vr4300_ex_stage env s).2).regs VR4300_REGISTER_R0 = 0 := by
  unfold vr4300_ex_stage
  dsimp only
  split <;> split
  all_goals first
  | exact henv.ldi _ h
  | (refine henv.handler _ _ _ _ ?_
     exact swap_restore_r0 _ _ _ h)

theorem dc_stage_r0 (env : Env) (s : Vr4300) (henv : EnvPreservesR0 env)
    (h : s.regs VR4300_REGISTER_R0 = 0) :
    ((vr4300_dc_stage env s).2).regs VR4300_REGISTER_R0 = 0 := by
  unfold vr4300_dc_stage
  dsimp only
  split
  · exact h
  · split
    · exact henv.dade _ h
    · split
      · exact henv.dcb _ h
      · exact h

theorem slow_wb_step_r0 (s : Vr4300) (h : s.regs VR4300_REGISTER_R0 = 0) :
    ((slow_wb_step s).2).regs VR4300_REGISTER_R0 = 0 := by
  unfold slow_wb_step
  split
  · exact wb_stage_r0 s h
  · exact h

theorem slow_dc_step_r0 (env : Env) (s : Vr4300) (henv : EnvPreservesR0 env)
    (h : s.regs VR4300_REGISTER_R0 = 0) :
    ((slow_dc_step env s).2).regs VR4300_REGISTER_R0 = 0 := by
  unfold slow_dc_step
  split
  · exact dc_stage_r0 env s henv h
  · exact h

theorem slow_ex_step_r0 (env : Env) (s : Vr4300) (henv : EnvPreservesR0 env)
    (h : s.regs VR4300_REGISTER_R0 = 0) :
    ((slow_ex_step env s).2).regs VR4300_REGISTER_R0 = 0 := by
  unfold slow_ex_step
  split
  · exact ex_stage_r0 env s henv h
  · exact h

theorem slow_rf_step_r0 (env : Env) (s : Vr4300) (henv : EnvPreservesR0 env)
    (h : s.regs VR4300_REGISTER_R0 = 0) :
    ((slow_rf_step env s).2).regs VR4300_REGISTER_R0 = 0 := by
  unfold slow_rf_step
  split
  · exact rf_stage_r0 env s henv h
  · exact h

theorem chain_rf_r0 (env : Env) (s : Vr4300) (henv : EnvPreservesR0 env)
    (h : s.regs VR4300_REGISTER_R0 = 0) :
    ((chain_rf env s).2).regs VR4300_REGISTER_R0 = 0 := by
  unfold chain_rf
  dsimp only
  split
  · exact slow_rf_step_r0 env s henv h
  · exact ic_stage_r0 env _ henv (slow_rf_step_r0 env s henv h)

theorem chain_ex_r0 (env : Env) (s : Vr4300) (henv : EnvPreservesR0 env)
    (h : s.regs VR4300_REGISTER_R0 = 0) :
    ((chain_ex env s).2).regs VR4300_REGISTER_R0 = 0 := by
  unfold chain_ex
  dsimp only
  split
  · exact slow_ex_step_r0 env s henv h
  · exact chain_rf_r0 env _ henv (slow_ex_step_r0 env s henv h)

theorem chain_dc_r0 (env : Env) (s : Vr4300) (henv : EnvPreservesR0 env)
    (h : s.regs VR4300_REGISTER_R0 = 0) :
    ((chain_dc env s).2).regs VR4300_REGISTER_R0 = 0 := by
  unfold chain_dc
  dsimp only
  split
  · exact slow_dc_step_r0 env s henv h
  · exact chain_ex_r0 env _ henv (slow_dc_step_r0 env s henv h)

theorem slow_wb_r0 (env : Env) (s : Vr4300) (henv : EnvPreservesR0 env)
    (h : s.regs VR4300_REGISTER_R0 = 0) :
    (vr4300_cycle_slow_wb env s).regs VR4300_REGISTER_R0 = 0 := by
  unfold vr4300_cycle_slow_wb
  dsimp only
  split
  · exact slow_wb_step_r0 (histUpdate s) h
  · exact chain_dc_r0 env _ henv (slow_wb_step_r0 (histUpdate s) h)

theorem slow_dc_r0 (env : Env) (s : Vr4300) (henv : EnvPreservesR0 env)
    (h : s.regs VR4300_REGISTER_R0 = 0) :
    (vr4300_cycle_slow_dc env s).regs VR4300_REGISTER_R0 = 0 := by
  unfold vr4300_cycle_slow_dc
  rw [runSlowTail_regs]
  exact chain_dc_r0 env s henv h

theorem slow_ex_r0 (env : Env) (s : Vr4300) (henv : EnvPreservesR0 env)
    (h : s.regs VR4300_REGISTER_R0 = 0) :
    (vr4300_cycle_slow_ex env s).regs VR4300_REGISTER_R0 = 0 := by
  unfold vr4300_cycle_slow_ex
  rw [runSlowTail_regs]
  exact chain_ex_r0 env s henv h

theorem slow_ex_fixdc_r0 (env : Env) (s : Vr4300) (henv : EnvPreservesR0 env)
    (h : s.regs VR4300_REGISTER_R0 = 0) :
    (vr4300_cycle_slow_ex_fixdc env s).regs VR4300_REGISTER_R0 = 0 := by
  unfold vr4300_cycle_slow_ex_fixdc
  rw [runSlowTail_regs]
  exact chain_ex_r0 env _ henv h

theorem slow_rf_r0 (env : Env) (s : Vr4300) (henv : EnvPreservesR0 env)
    (h : s.regs VR4300_REGISTER_R0 = 0) :
    (vr4300_cycle_slow_rf env s).regs VR4300_REGISTER_R0 = 0 := by
  unfold vr4300_cycle_slow_rf
  rw [runSlowTail_regs]
  exact chain_rf_r0 env s henv h

theorem slow_ic_r0 (env : Env) (s : Vr4300) (henv : EnvPreservesR0 env)
    (h : s.regs VR4300_REGISTER_R0 = 0) :
    (vr4300_cycle_slow_ic env s).regs VR4300_REGISTER_R0 = 0 := by
  unfold vr4300_cycle_slow_ic
  rw [runSlowTail_regs]
  exact ic_stage_r0 env s henv h

theorem lut_r0 (env : Env) (n : Nat) (s : Vr4300) (henv : EnvPreservesR0 env)
    (h : s.regs VR4300_REGISTER_R0 = 0) :
    (pipeline_function_lut env n s).regs VR4300_REGISTER_R0 = 0 := by
  match n with
  | 0 => exact slow_wb_r0 env s henv h
  | 1 => exact slow_dc_r0 env s henv h
  | 2 => exact slow_ex_r0 env s henv h
  | 3 => exact slow_rf_r0 env s henv h
  | 4 => exact slow_ic_r0 env s henv h
  | 5 => exact slow_ex_fixdc_r0 env s henv h
  | _ + 6 => exact h

/-- Claim C1: starting from a state with `regs[R0] == 0`, and assuming the
external opcode handlers and fault helpers preserve `regs[R0] == 0`, the
invariant holds immediately after `vr4300_cycle` returns.  Moreover
`vr4300_wb_stage` re-forces register 0 to zero after any fault-free
writeback, and the branchless forwarding swap of `vr4300_ex_stage` leaves
`regs[R0] == 0` for every value of `dcwb_latch.dest` and
`dcwb_latch.result`. -/
theorem C1_register_zero_invariant :
    (∀ (env : Env) (s : Vr4300), EnvPreservesR0 env →
      s.regs VR4300_REGISTER_R0 = 0 →
      (vr4300_cycle env s).regs VR4300_REGISTER_R0 = 0) ∧
    (∀ s : Vr4300, s.pipeline.dcwb_latch.common.fault = Fault.NONE →
      ((vr4300_wb_stage s).2).regs VR4300_REGISTER_R0 = 0) ∧
    (∀ (r : Nat → Nat) (d res : Nat), r VR4300_REGISTER_R0 = 0 →
      updReg (updReg (updReg r d res) VR4300_REGISTER_R0 0) d (r d)
        VR4300_REGISTER_R0 = 0) := by
  refine ⟨fun env s henv h => ?_, fun s h => ?_,
    fun r d res h => swap_restore_r0 r d res h⟩
  · unfold vr4300_cycle
    dsimp only
    by_cases hstall : s.pipeline.cycles_to_stall > 0
    · rw [if_pos hstall]
      exact h
    · rw [if_neg hstall]
      have h1 : (if s.signals &&& VR4300_SIGNAL_COLDRESET ≠ 0 then env.fault_RST s
          else s).regs VR4300_REGISTER_R0 = 0 := by
        split
        · exact henv.rst _ h
        · exact h
      generalize hts : (if s.signals &&& VR4300_SIGNAL_COLDRESET ≠ 0 then
          env.fault_RST s else s) = t at h1
      have h2 := wb_stage_r0 t h1
      have h3 := dc_stage_r0 env _ henv h2
      have h4 := ex_stage_r0 env _ henv h3
      have h5 := rf_stage_r0 env _ henv h4
      split
      · exact lut_r0 env _ _ henv h1
      · split
        · exact h2
        · split
          · exact h3
          · split
            · exact h4
            · split
              · exact h5
              · exact ic_stage_r0 env _ henv h5
  · unfold vr4300_wb_stage
    dsimp only
    rw [if_neg (by simp [h])]
    simp [updReg, VR4300_REGISTER_R0]

/-- The inert environment of the test vectors satisfies the preservation
contract. -/
theorem idEnv_preservesR0 : EnvPreservesR0 idEnv :=
  ⟨fun _ _ _ _ h => h, fun _ h => h, fun _ h => h, fun _ h => h,
   fun _ h => h, fun _ h => h, fun _ h => h⟩

/-- Witness for C1 at the inert environment and the initial state. -/
theorem C1_register_zero_invariant_witness :
    (vr4300_cycle idEnv initVr).regs VR4300_REGISTER_R0 = 0 :=
  C1_register_zero_invariant.1 idEnv initVr idEnv_preservesR0 rfl

/-! ## Claim C6: IC segment check and fetch advance -/

@[simp] theorem ic_decode_update_icrf_pc (env : Env) (s : Vr4300) :
    (ic_decode_update env s).pipeline.icrf_latch.pc = s.pipeline.icrf_latch.pc := rfl

/-- Claim C6: `vr4300_ic_stage` treats the pc as outside the current
segment exactly when the unsigned difference `pc - segment.start` exceeds
`segment.length`.  On a segment-map miss it raises IADE and aborts with
`icrf_latch.pc` not advanced; on containment, and likewise on a lookup
hit, it clears `icrf_latch.common.fault` and advances `icrf_latch.pc` by
exactly 4 (mod 2^64) before returning continue. -/
theorem C6_ic_segment_check :
    (∀ (env : Env) (s : Vr4300),
      sub64 s.pipeline.icrf_latch.pc s.pipeline.icrf_latch.segment.start >
        s.pipeline.icrf_latch.segment.length →
      env.get_segment s.pipeline.icrf_latch.pc
        (s.regs VR4300_CP0_REGISTER_STATUS % 2 ^ 32) = none →
      vr4300_ic_stage env s = (true, env.fault_IADE (ic_decode_update env s)) ∧
      (ic_decode_update env s).pipeline.icrf_latch.pc =
        s.pipeline.icrf_latch.pc) ∧
    (∀ (env : Env) (s : Vr4300),
      ¬ sub64 s.pipeline.icrf_latch.pc s.pipeline.icrf_latch.segment.start >
        s.pipeline.icrf_latch.segment.length →
      (vr4300_ic_stage env s).1 = false ∧
      ((vr4300_ic_stage env s).2).pipeline.icrf_latch.common.fault = Fault.NONE ∧
      ((vr4300_ic_stage env s).2).pipeline.icrf_latch.pc =
        (s.pipeline.icrf_latch.pc + 4) % 2 ^ 64) ∧
    (∀ (env : Env) (s : Vr4300) (seg : Segment),
      sub64 s.pipeline.icrf_latch.pc s.pipeline.icrf_latch.segment.start >
        s.pipeline.icrf_latch.segment.length →
      env.get_segment s.pipeline.icrf_latch.pc
        (s.regs VR4300_CP0_REGISTER_STATUS % 2 ^ 32) = some seg →
      (vr4300_ic_stage env s).1 = false ∧
      ((vr4300_ic_stage env s).2).pipeline.icrf_latch.common.fault = Fault.NONE ∧
      ((vr4300_ic_stage env s).2).pipeline.icrf_latch.segment = seg ∧
      ((vr4300_ic_stage env s).2).pipeline.icrf_latch.pc =
        (s.pipeline.icrf_latch.pc + 4) % 2 ^ 64) := by
  refine ⟨fun env s hgt hnone => ?_, fun env s hle => ?_, fun env s seg hgt hsome => ?_⟩
  · unfold vr4300_ic_stage
    dsimp only
    rw [if_pos hgt]
    rw [show (ic_decode_update env s).regs = s.regs from rfl, hnone]
    exact ⟨rfl, rfl⟩
  · unfold vr4300_ic_stage
    dsimp only
    rw [if_neg hle]
    exact ⟨rfl, rfl, rfl⟩
  · unfold vr4300_ic_stage
    dsimp only
    rw [if_pos hgt]
    rw [show (ic_decode_update env s).regs = s.regs from rfl, hsome]
    exact ⟨rfl, rfl, rfl, rfl⟩

/-- Witness for C6: a concrete out-of-segment miss under the empty segment
map, and a concrete in-segment fetch that advances the pc. -/
theorem C6_ic_segment_check_witness :
    (vr4300_ic_stage noSegEnv icMissState =
      (true, noSegEnv.fault_IADE (ic_decode_update noSegEnv icMissState)) ∧
     (ic_decode_update noSegEnv icMissState).pipeline.icrf_latch.pc =
       icMissState.pipeline.icrf_latch.pc) ∧
    ((vr4300_ic_stage idEnv initVr).1 = false ∧
     ((vr4300_ic_stage idEnv initVr).2).pipeline.icrf_latch.common.fault =
       Fault.NONE ∧
     ((vr4300_ic_stage idEnv initVr).2).pipeline.icrf_latch.pc =
       (initVr.pipeline.icrf_latch.pc + 4) % 2 ^ 64) :=
  ⟨C6_ic_segment_check.1 noSegEnv icMissState (by decide) rfl,
   C6_ic_segment_check.2.1 idEnv initVr (by decide)⟩

/-! ## Claims C7 and C9: the load-use interlock condition -/

theorem land_complement_needrs (f : Nat) :
    f &&& complement32 (OPCODE_INFO_NEEDRS ||| OPCODE_INFO_NEEDRT) &&&
      OPCODE_INFO_NEEDRS = 0 := by
  apply Nat.eq_of_testBit_eq
  intro i
  rw [Nat.testBit_land, Nat.testBit_land, Nat.zero_testBit]
  rcases eq_or_ne i 1 with h1 | h1
  · subst h1
    have hc : (complement32 (OPCODE_INFO_NEEDRS ||| OPCODE_INFO_NEEDRT)).testBit 1 =
        false := by decide
    simp [hc]
  · have hb : (OPCODE_INFO_NEEDRS : Nat).testBit i = false := by
      match i, h1 with
      | 0, _ => decide
      | 1, h => exact absurd rfl h
      | n + 2, _ =>
        exact Nat.testBit_lt_two_pow (by
          have : (2 : Nat) ^ 2 ≤ 2 ^ (n + 2) := Nat.pow_le_pow_right (by omega) (by omega)
          simp only [OPCODE_INFO_NEEDRS]
          omega)
    simp [hb]

theorem land_complement_needrt (f : Nat) :
    f &&& complement32 (OPCODE_INFO_NEEDRS ||| OPCODE_INFO_NEEDRT) &&&
      OPCODE_INFO_NEEDRT = 0 := by
  apply Nat.eq_of_testBit_eq
  intro i
  rw [Nat.testBit_land, Nat.testBit_land, Nat.zero_testBit]
  rcases eq_or_ne i 2 with h1 | h1
  · subst h1
    have hc : (complement32 (OPCODE_INFO_NEEDRS ||| OPCODE_INFO_NEEDRT)).testBit 2 =
        false := by decide
    simp [hc]
  · have hb : (OPCODE_INFO_NEEDRT : Nat).testBit i = false := by
      match i, h1 with
      | 0, _ => decide
      | 1, _ => decide
      | 2, h => exact absurd rfl h
      | n + 3, _ =>
        exact Nat.testBit_lt_two_pow (by
          have : (2 : Nat) ^ 3 ≤ 2 ^ (n + 3) := Nat.pow_le_pow_right (by omega) (by omega)
          simp only [OPCODE_INFO_NEEDRT]
          omega)
    simp [hb]

@[simp] theorem ex_common_update_req (s : Vr4300) :
    (ex_common_update s).pipeline.exdc_latch.request =
      s.pipeline.exdc_latch.request := rfl

/-- Shared fact: whenever the interlock condition (on the original flag
word) holds and a bus request is pending, EX raises LDI on the
common-propagated state, touching nothing else. -/
theorem ex_ldi_eq (env : Env) (s : Vr4300)
    (hreq : s.pipeline.exdc_latch.request.type ≠ BusRequestType.NONE)
    (hcond : (s.pipeline.dcwb_latch.dest = GET_RS s.pipeline.rfex_latch.iw ∧
        s.pipeline.rfex_latch.opcode.flags &&& OPCODE_INFO_NEEDRS ≠ 0) ∨
      (s.pipeline.dcwb_latch.dest = GET_RT s.pipeline.rfex_latch.iw ∧
        s.pipeline.rfex_latch.opcode.flags &&& OPCODE_INFO_NEEDRT ≠ 0)) :
    vr4300_ex_stage env s = (true, env.fault_LDI (ex_common_update s)) := by
  unfold vr4300_ex_stage
  dsimp only
  rw [show (ex_common_update s).pipeline.exdc_latch.request =
    s.pipeline.exdc_latch.request from rfl]
  rw [if_neg hreq, if_pos hcond]

/-- Claim C7: when the EXDC latch holds no pending bus request the NEEDRS
and NEEDRT bits are cleared before the interlock check, so EX can never
abort; when a request is pending and the instruction needs rs (or rt)
matching `dcwb_latch.dest`, EX raises LDI and aborts on the
common-propagated state, with the register file untouched (no forwarding
swap, no handler call). -/
theorem C7_interlock_condition :
    (∀ (env : Env) (s : Vr4300),
      s.pipeline.exdc_latch.request.type = BusRequestType.NONE →
      (vr4300_ex_stage env s).1 = false) ∧
    (∀ (env : Env) (s : Vr4300),
      s.pipeline.exdc_latch.request.type ≠ BusRequestType.NONE →
      ((s.pipeline.dcwb_latch.dest = GET_RS s.pipeline.rfex_latch.iw ∧
          s.pipeline.rfex_latch.opcode.flags &&& OPCODE_INFO_NEEDRS ≠ 0) ∨
        (s.pipeline.dcwb_latch.dest = GET_RT s.pipeline.rfex_latch.iw ∧
          s.pipeline.rfex_latch.opcode.flags &&& OPCODE_INFO_NEEDRT ≠ 0)) →
      vr4300_ex_stage env s = (true, env.fault_LDI (ex_common_update s)) ∧
      (ex_common_update s).regs = s.regs) := by
  refine ⟨fun env s hreq => ?_, fun env s hreq hcond =>
    ⟨ex_ldi_eq env s hreq hcond, rfl⟩⟩
  unfold vr4300_ex_stage
  dsimp only
  rw [show (ex_common_update s).pipeline.exdc_latch.request =
    s.pipeline.exdc_latch.request from rfl]
  rw [if_pos hreq]
  rw [if_neg (by
    simp [land_complement_needrs, land_complement_needrt])]

/-- Witness for C7: with no pending request EX continues even though the
decoded opcode nominally needs rs; with a pending request the same
instruction interlocks. -/
theorem C7_interlock_condition_witness :
    (vr4300_ex_stage idEnv
      { initVr with pipeline := { initVr.pipeline with
          rfex_latch := ⟨⟨0, Fault.NONE⟩, ⟨0, OPCODE_INFO_NEEDRS⟩, 0, 0⟩ } }).1 =
      false ∧
    (vr4300_ex_stage idEnv ldiState =
      (true, idEnv.fault_LDI (ex_common_update ldiState)) ∧
     (ex_common_update ldiState).regs = ldiState.regs) :=
  ⟨C7_interlock_condition.1 idEnv _ (by decide),
   C7_interlock_condition.2 idEnv ldiState (by decide) (by decide)⟩

/-- Claim C9 (implicit): the load-interlock check does not exclude
register 0: with a pending bus request, `dcwb_latch.dest = 0` and an
instruction whose NEEDRS flag is set with rs-field 0 (or NEEDRT with
rt-field 0), EX raises LDI and aborts even though register 0 never needs
forwarding. -/
theorem C9_interlock_includes_r0 (env : Env) (s : Vr4300)
    (hreq : s.pipeline.exdc_latch.request.type ≠ BusRequestType.NONE)
    (hdest : s.pipeline.dcwb_latch.dest = 0)
    (hneed : (s.pipeline.rfex_latch.opcode.flags &&& OPCODE_INFO_NEEDRS ≠ 0 ∧
        GET_RS s.pipeline.rfex_latch.iw = 0) ∨
      (s.pipeline.rfex_latch.opcode.flags &&& OPCODE_INFO_NEEDRT ≠ 0 ∧
        GET_RT s.pipeline.rfex_latch.iw = 0)) :
    vr4300_ex_stage env s = (true, env.fault_LDI (ex_common_update s)) := by
  apply ex_ldi_eq env s hreq
  rcases hneed with ⟨hf, hrs⟩ | ⟨hf, hrt⟩
  · exact Or.inl ⟨by rw [hdest, hrs], hf⟩
  · exact Or.inr ⟨by rw [hdest, hrt], hf⟩

/-- Witness for C9: the concrete interlock on register 0. -/
theorem C9_interlock_includes_r0_witness :
    vr4300_ex_stage idEnv ldiState =
      (true, idEnv.fault_LDI (ex_common_update ldiState)) :=
  C9_interlock_includes_r0 idEnv ldiState (by decide) (by decide)
    (Or.inl ⟨by decide, by decide⟩)

/-! ## Claim C10: DC aborts are not atomic -/

@[simp] theorem dc_copy_update_exdc (s : Vr4300) :
    (dc_copy_update s).pipeline.exdc_latch = s.pipeline.exdc_latch := rfl

@[simp] theorem dc_install_update_dcwb (s : Vr4300) (seg : Segment) :
    (dc_install_update s seg).pipeline.dcwb_latch = s.pipeline.dcwb_latch := rfl

/-- Claim C10 (implicit): whenever `vr4300_dc_stage` aborts — DADE on a
segment-map miss, or DCB on the read path — the DCWB latch has already
been copied from the EXDC latch; and on the DCB read path the resolved
segment has already been installed into `exdc_latch.segment` with
`segment.offset` subtracted from `exdc_latch.request.address` before the
abort. -/
theorem C10_dc_abort_effects :
    (∀ (env : Env) (s : Vr4300),
      s.pipeline.exdc_latch.request.type ≠ BusRequestType.NONE →
      dc_segment_lookup env (dc_copy_update s) = none →
      vr4300_dc_stage env s = (true, env.fault_DADE (dc_copy_update s)) ∧
      (dc_copy_update s).pipeline.dcwb_latch.common =
        s.pipeline.exdc_latch.common ∧
      (dc_copy_update s).pipeline.dcwb_latch.result =
        s.pipeline.exdc_latch.result ∧
      (dc_copy_update s).pipeline.dcwb_latch.dest =
        s.pipeline.exdc_latch.dest) ∧
    (∀ (env : Env) (s : Vr4300) (seg : Segment),
      s.pipeline.exdc_latch.request.type = BusRequestType.READ →
      dc_segment_lookup env (dc_copy_update s) = some seg →
      vr4300_dc_stage env s =
        (true, env.fault_DCB (dc_install_update (dc_copy_update s) seg)) ∧
      (dc_install_update (dc_copy_update s) seg).pipeline.exdc_latch.segment =
        seg ∧
      (dc_install_update (dc_copy_update s) seg).pipeline.exdc_latch.request.address =
        sub64 s.pipeline.exdc_latch.request.address seg.offset ∧
      (dc_install_update (dc_copy_update s) seg).pipeline.dcwb_latch.common =
        s.pipeline.exdc_latch.common ∧
      (dc_install_update (dc_copy_update s) seg).pipeline.dcwb_latch.result =
        s.pipeline.exdc_latch.result ∧
      (dc_install_update (dc_copy_update s) seg).pipeline.dcwb_latch.dest =
        s.pipeline.exdc_latch.dest) := by
  constructor
  · intro env s hreq hnone
    refine ⟨?_, rfl, rfl, rfl⟩
    unfold vr4300_dc_stage
    dsimp only
    rw [show (dc_copy_update s).pipeline.exdc_latch = s.pipeline.exdc_latch
      from rfl]
    rw [if_neg hreq, hnone]
  · intro env s seg hread hsome
    refine ⟨?_, rfl, rfl, rfl, rfl, rfl⟩
    unfold vr4300_dc_stage
    dsimp only
    rw [show (dc_copy_update s).pipeline.exdc_latch = s.pipeline.exdc_latch
      from rfl]
    rw [if_neg (by rw [hread]; exact fun hc => BusRequestType.noConfusion hc),
      hsome]
    dsimp only
    rw [if_pos (by
      rw [show (dc_install_update (dc_copy_update s) seg).pipeline.exdc_latch.request.type =
        s.pipeline.exdc_latch.request.type from rfl]
      exact hread)]

/-- Witness for C10: a concrete DADE abort with the DCWB copy visible, and
a concrete DCB abort with segment installed and address rebased. -/
theorem C10_dc_abort_effects_witness :
    (vr4300_dc_stage noSegEnv dadeState =
      (true, noSegEnv.fault_DADE (dc_copy_update dadeState)) ∧
     (dc_copy_update dadeState).pipeline.dcwb_latch.result =
       dadeState.pipeline.exdc_latch.result) ∧
    (vr4300_dc_stage idEnv dcbState =
      (true, idEnv.fault_DCB
        (dc_install_update (dc_copy_update dcbState) ⟨0, 2 ^ 64 - 1, 5, true⟩)) ∧
     (dc_install_update (dc_copy_update dcbState) ⟨0, 2 ^ 64 - 1, 5, true⟩).pipeline.exdc_latch.request.address =
       sub64 dcbState.pipeline.exdc_latch.request.address 5) :=
  ⟨⟨(C10_dc_abort_effects.1 noSegEnv dadeState (by decide) (by decide)).1,
    (C10_dc_abort_effects.1 noSegEnv dadeState (by decide) (by decide)).2.2.1⟩,
   ⟨(C10_dc_abort_effects.2 idEnv dcbState ⟨0, 2 ^ 64 - 1, 5, true⟩
      (by decide) (by decide)).1,
    (C10_dc_abort_effects.2 idEnv dcbState ⟨0, 2 ^ 64 - 1, 5, true⟩
      (by decide) (by decide)).2.2.1⟩⟩

/-! ## Claim C8: the load fix-up arithmetic -/

/-- The arithmetic-shift round-trip on a 64-bit value clears exactly the
low `k` bits: `(x >> k) << k` with a sign-propagating right shift equals
`x` with its low `k` bits dropped, for any shift up to the word size. -/
theorem shl64_asr64 (u k : Nat) (hu : u < 2 ^ 64) (hk : k ≤ 64) :
    shl64 (asr64 u k) k = u - u % 2 ^ k := by
  have hmodle : u % 2 ^ k ≤ u := Nat.mod_le u _
  have hu64 : u % 2 ^ 64 = u := Nat.mod_eq_of_lt hu
  have h2kpos : (0 : Int) < 2 ^ k := by positivity
  have h264pos : (0 : Int) < 2 ^ 64 := by positivity
  unfold shl64 asr64 nat64OfInt int64OfNat
  rw [hu64]
  set m : Int := if u < 2 ^ 63 then ((u : Nat) : Int) else ((u : Nat) : Int) - 2 ^ 64
    with hm
  obtain ⟨t, ht⟩ : ∃ t : Int, m = (u : Int) + 2 ^ 64 * t := by
    rw [hm]
    split
    · exact ⟨0, by ring⟩
    · exact ⟨-1, by ring⟩
  rw [Int.fdiv_eq_ediv m (le_of_lt h2kpos)]
  have hq : 2 ^ k * (m / 2 ^ k) = m - m % 2 ^ k := by
    have h := Int.ediv_add_emod m (2 ^ k)
    linarith
  have hmk : m % 2 ^ k = ((u % 2 ^ k : Nat) : Int) := by
    rw [ht]
    have hkk : k + (64 - k) = 64 := by omega
    have h1 : (u : Int) + 2 ^ 64 * t = (u : Int) + 2 ^ k * (2 ^ (64 - k) * t) := by
      rw [← mul_assoc, ← pow_add, hkk]
    rw [h1, Int.add_mul_emod_self_left]
    push_cast
    rfl
  have hqmod_nonneg : (0 : Int) ≤ m / 2 ^ k % 2 ^ 64 :=
    Int.emod_nonneg _ (by positivity)
  zify [hmodle]
  rw [Int.toNat_of_nonneg hqmod_nonneg]
  have e1 : m / 2 ^ k % 2 ^ 64 * 2 ^ k % 2 ^ 64 = m / 2 ^ k * 2 ^ k % 2 ^ 64 := by
    rw [Int.mul_emod, Int.emod_emod_of_dvd _ dvd_rfl, ← Int.mul_emod]
  rw [e1, mul_comm (m / 2 ^ k), hq, hmk, ht]
  have e2 : (u : Int) + 2 ^ 64 * t - ((u % 2 ^ k : Nat) : Int) =
      ((u - u % 2 ^ k : Nat) : Int) + 2 ^ 64 * t := by
    push_cast [hmodle]
    ring
  rw [e2, Int.add_mul_emod_self_left, Int.emod_eq_of_lt (by positivity)
    (by exact_mod_cast lt_of_le_of_lt (Nat.sub_le u _) hu)]
  push_cast [hmodle]
  ring

/-- Claim C8: in `vr4300_cycle_slow_ex_fixdc`, with
`maskshift = request.size * 8` and `datashift = (8 - request.size) * 8`,
the value stored to `dcwb_latch.result` equals `(sdata & mask) | data`,
where `mask` is `exdc_latch.result` with its low `maskshift` bits
cleared, `sdata` the arithmetic-shift round-trip of the sign-extended
`request.word` and `data` the logical-shift round-trip of `request.word`,
all in 64-bit twos-complement arithmetic; in particular, for
`request.size = 2`, `request.word = 0x8000` and an all-ones
`exdc_latch.result` mask, `dcwb_latch.result = 0xFFFFFFFFFFFF8000`. -/
theorem C8_fixdc_arithmetic :
    (∀ s : Vr4300, s.pipeline.exdc_latch.request.size ≤ 8 →
      (vr4300_fixdc_update s).pipeline.dcwb_latch.result =
        Nat.lor
          (Nat.land
            (asr64 (shl64 (sext32to64 s.pipeline.exdc_latch.request.word)
                ((8 - s.pipeline.exdc_latch.request.size) * 8))
              ((8 - s.pipeline.exdc_latch.request.size) * 8))
            (s.pipeline.exdc_latch.result % 2 ^ 64 -
              s.pipeline.exdc_latch.result % 2 ^ 64 %
                2 ^ (s.pipeline.exdc_latch.request.size * 8)))
          (lsr64 (shl64 (s.pipeline.exdc_latch.request.word % 2 ^ 32)
              ((8 - s.pipeline.exdc_latch.request.size) * 8))
            ((8 - s.pipeline.exdc_latch.request.size) * 8))) ∧
    (vr4300_fixdc_update fixdcState).pipeline.dcwb_latch.result =
      0xFFFFFFFFFFFF8000 := by
  constructor
  · intro s hsize
    unfold vr4300_fixdc_update
    dsimp only
    rw [shl64_asr64 (s.pipeline.exdc_latch.result % 2 ^ 64)
      (s.pipeline.exdc_latch.request.size * 8)
      (Nat.mod_lt _ (by positivity)) (by omega)]
    rfl
  · decide

/-- Witness for C8 at the sign-extension test vector. -/
theorem C8_fixdc_arithmetic_witness :
    (vr4300_fixdc_update fixdcState).pipeline.dcwb_latch.result =
      Nat.lor
        (Nat.land
          (asr64 (shl64 (sext32to64 fixdcState.pipeline.exdc_latch.request.word)
              ((8 - fixdcState.pipeline.exdc_latch.request.size) * 8))
            ((8 - fixdcState.pipeline.exdc_latch.request.size) * 8))
          (fixdcState.pipeline.exdc_latch.result % 2 ^ 64 -
            fixdcState.pipeline.exdc_latch.result % 2 ^ 64 %
              2 ^ (fixdcState.pipeline.exdc_latch.request.size * 8)))
        (lsr64 (shl64 (fixdcState.pipeline.exdc_latch.request.word % 2 ^ 32)
            ((8 - fixdcState.pipeline.exdc_latch.request.size) * 8))
          ((8 - fixdcState.pipeline.exdc_latch.request.size) * 8)) :=
  C8_fixdc_arithmetic.1 fixdcState (by decide)
